import Mathlib

/-!
# Life Navigator — Aggregation & Scoring Engine, shallow embedding

This file embeds the decision logic of the `life-navigator` repository in
Lean 4 and proves/refutes the frozen specification claims about it.

Embedded source files:
* `src/analysis/PersonalHealthAnalyzer.js` — the scoring engine
  (`analyzeProductivityHealth`, `calculateEmailStress`,
  `calculateMeetingDensity`, `analyzeSleepPattern`,
  `generateRecommendations`, `getStatusText`);
* `api/gmail/stress-level.js` — the EMAIL normalizer (keyword counting and
  the stress-magnitude formula);
* `api/calendar/schedule-health.js` — the CALENDAR normalizer (meeting
  minutes, density, focus time);
* `server/personal-proxy.js` (`/api/fitness/summary`) — the simulated
  ACTIVITY payload generator (its `sleepQuality` draw).

Modelling conventions:
* JavaScript numbers are modelled as exact rationals (`ℚ`).  None of the
  embedded computations hit double-precision rounding at the decision
  thresholds involved in the claims.
* A JS value that may be `undefined` is an `Option`.  `x || 0` on a number
  is `Option.getD · 0` (for the values that occur, `0 || 0 = 0` agrees).
  A raw comparison `undefined < c` or `undefined > c` is `false` in JS;
  `jsLt`/`jsGt` model this.
* `Number.prototype.toFixed(k)` followed by `parseFloat` is the exact
  rational rounding `roundK` below (nearest multiple of `10^-k`, ties
  toward the larger integer numerator, exactly as ECMA-262 specifies).
* A JS `TypeError` (reading a property of `undefined`) is `Except.error`;
  the engine entry point therefore returns `Except String AnalysisResult`.
* `new Date().toISOString()` is modelled by an explicit `now : String`
  parameter: the string the clock read would produce at call time.
-/

/-- `Math.max 0 (Math.min hi x)` style clamping, written as the generic
`clamp value lo hi` used by the spec text. -/
def clamp (v lo hi : ℚ) : ℚ := max lo (min hi v)

/-- `x.toFixed(3)` then `parseFloat`, as exact rational rounding. -/
def round3 (q : ℚ) : ℚ := ((⌊q * 1000 + 1/2⌋ : ℤ) : ℚ) / 1000

/-- `x.toFixed(2)` then `parseFloat`, as exact rational rounding. -/
def round2 (q : ℚ) : ℚ := ((⌊q * 100 + 1/2⌋ : ℤ) : ℚ) / 100

/-- `x.toFixed(1)` then `parseFloat`, as exact rational rounding. -/
def round1 (q : ℚ) : ℚ := ((⌊q * 10 + 1/2⌋ : ℤ) : ℚ) / 10

/-- JS `a < c` where `a` may be `undefined` (`undefined < c` is `false`). -/
def jsLt (a : Option ℚ) (c : ℚ) : Bool :=
  match a with
  | none => false
  | some v => v < c

/-- JS `a > c` where `a` may be `undefined` (`undefined > c` is `false`). -/
def jsGt (a : Option ℚ) (c : ℚ) : Bool :=
  match a with
  | none => false
  | some v => c < v

/-- JS template interpolation of a number; the engine only interpolates
integer-valued counts, printed the way JS prints integers. -/
def jsNumberString (q : ℚ) : String :=
  if q.den = 1 then toString q.num else toString q

/-! ## Payload shapes (§6 of the spec; all fields optional in JS) -/

/-- EMAIL payload `{ stressLevel?, urgentCount?, totalEmails?, unreadCount? }`. -/
structure EmailData where
  stressLevel : Option ℚ := none
  urgentCount : Option ℚ := none
  totalEmails : Option ℚ := none
  unreadCount : Option ℚ := none
  deriving DecidableEq, Repr

/-- CALENDAR payload
`{ meetingDensity?, totalEvents?, meetingCount?, focusTimeHours?, declinableCount? }`. -/
structure CalendarData where
  meetingDensity : Option ℚ := none
  totalEvents : Option ℚ := none
  meetingCount : Option ℚ := none
  focusTimeHours : Option ℚ := none
  declinableCount : Option ℚ := none
  deriving DecidableEq, Repr

/-- ACTIVITY payload
`{ sleepDuration?, sleepQuality?, dailySteps?, activeMinutes?, stressLevel? }`. -/
structure FitnessData where
  sleepDuration : Option ℚ := none
  sleepQuality : Option ℚ := none
  dailySteps : Option ℚ := none
  activeMinutes : Option ℚ := none
  stressLevel : Option ℚ := none
  deriving DecidableEq, Repr

/-- A per-source wrapper object as delivered by the fetch layer: the
`data` field itself may be missing (`{ emails: {} }` is representable in
JS and distinct from `emails` being absent). -/
structure Source (α : Type) where
  data : Option α := none
  deriving DecidableEq, Repr

/-- The `userData` argument of `analyzeProductivityHealth`: each source is
either absent (`none`) or a wrapper object. -/
structure UserData where
  emails : Option (Source EmailData) := none
  calendar : Option (Source CalendarData) := none
  fitness : Option (Source FitnessData) := none
  deriving DecidableEq, Repr

/-! ## Engine result shapes (`PersonalHealthAnalyzer.js`) -/

/-- Return value of `calculateEmailStress`.  In the no-data branch the JS
object carries no `urgentCount` and no `stressPercentage`; those fields are
`Option` here. -/
structure EmailAnalysis where
  stressLevel : ℚ
  urgentCount : Option ℚ
  scoreAdjustment : ℚ
  stressStatus : String
  stressPercentage : Option String
  deriving DecidableEq, Repr

/-- Return value of `calculateMeetingDensity` (interpretation flattened). -/
structure CalendarAnalysis where
  density : ℚ
  focusTime : Option ℚ
  declinableCount : Option ℚ
  scoreAdjustment : ℚ
  scheduleStatus : String
  densityPercentage : Option String
  deriving DecidableEq, Repr

/-- Return value of `analyzeSleepPattern` (interpretation flattened). -/
structure FitnessAnalysis where
  overallHealth : ℚ
  sleepDuration : Option ℚ
  sleepQuality : Option ℚ
  stressLevel : Option ℚ
  scoreAdjustment : ℚ
  sleepStatus : String
  activityStatus : Option String
  deriving DecidableEq, Repr

/-- One entry of `insights.adjustments`. -/
structure Adjustment where
  category : String
  impact : ℚ
  detail : String
  deriving DecidableEq, Repr

/-- The `insights` accumulator of `analyzeProductivityHealth`. -/
structure Insights where
  emailStress : ℚ
  scheduleHealth : ℚ
  fitnessHealth : ℚ
  adjustments : List Adjustment
  deriving DecidableEq, Repr

/-- One recommendation object. -/
structure Recommendation where
  priority : String
  action : String
  reason : String
  category : String
  deriving DecidableEq, Repr

/-- The object returned by `analyzeProductivityHealth`. -/
structure AnalysisResult where
  score : ℚ
  status : String
  insights : Insights
  recommendations : List Recommendation
  timestamp : String
  deriving DecidableEq, Repr

/-! ## Per-source analyzers -/

/-- `calculateEmailStress(emailData)` from `PersonalHealthAnalyzer.js`
(the argument is `userData.emails.data`, possibly `undefined`).  The JS
also binds `totalEmails = emailData.totalEmails || 1`, which is never used
afterwards and is omitted here. -/
def calculateEmailStress (emailData : Option EmailData) : EmailAnalysis :=
  match emailData with
  | none =>
      { stressLevel := 0, urgentCount := none, scoreAdjustment := 0,
        stressStatus := "No data", stressPercentage := none }
  | some d =>
      let stressLevel := d.stressLevel.getD 0
      let urgentCount := d.urgentCount.getD 0
      let banded : ℚ :=
        if stressLevel < 0.3 then 20
        else if stressLevel < 0.5 then 10
        else if stressLevel < 0.7 then -10
        else -25
      let scoreAdjustment := if urgentCount > 3 then banded - 10 else banded
      { stressLevel := stressLevel,
        urgentCount := some urgentCount,
        scoreAdjustment := scoreAdjustment,
        stressStatus :=
          if stressLevel > 0.7 then "High Stress"
          else if stressLevel > 0.4 then "Moderate Stress"
          else "Low Stress",
        stressPercentage := some (jsNumberString ⌊stressLevel * 100 + 1/2⌋ ++ "%") }

/-- `calculateMeetingDensity(calendarData)` from `PersonalHealthAnalyzer.js`. -/
def calculateMeetingDensity (calendarData : Option CalendarData) : CalendarAnalysis :=
  match calendarData with
  | none =>
      { density := 0, focusTime := none, declinableCount := none,
        scoreAdjustment := 0, scheduleStatus := "No data",
        densityPercentage := none }
  | some d =>
      let density := d.meetingDensity.getD 0
      let focusTime := d.focusTimeHours.getD 0
      let declinable := d.declinableCount.getD 0
      let banded : ℚ :=
        if density < 0.4 then 20
        else if density < 0.6 then 5
        else if density < 0.8 then -15
        else -30
      let scoreAdjustment := if focusTime ≥ 3 then banded + 10 else banded
      { density := density,
        focusTime := some focusTime,
        declinableCount := some declinable,
        scoreAdjustment := scoreAdjustment,
        scheduleStatus :=
          if density > 0.6 then "Overbooked"
          else if density > 0.4 then "Busy"
          else "Balanced",
        densityPercentage := some (jsNumberString ⌊density * 100 + 1/2⌋ ++ "%") }

/-- `analyzeSleepPattern(fitnessData)` from `PersonalHealthAnalyzer.js`.
The four sub-adjustments (duration, quality, steps, stress) accumulate
into one delta exactly as the source's `scoreAdjustment +=` chain does. -/
def analyzeSleepPattern (fitnessData : Option FitnessData) : FitnessAnalysis :=
  match fitnessData with
  | none =>
      { overallHealth := 0, sleepDuration := none, sleepQuality := none,
        stressLevel := none, scoreAdjustment := 0,
        sleepStatus := "No data", activityStatus := none }
  | some d =>
      let sleepDuration := d.sleepDuration.getD 0
      let sleepQuality := d.sleepQuality.getD 0
      let stressLevel := d.stressLevel.getD 0
      let dailySteps := d.dailySteps.getD 0
      let durAdj : ℚ :=
        if 7 ≤ sleepDuration ∧ sleepDuration ≤ 9 then 20
        else if 6 ≤ sleepDuration then 5
        else if sleepDuration < 6 then -20
        else 0
      let qualAdj : ℚ :=
        if sleepQuality > 0.7 then 10
        else if sleepQuality < 0.5 then -10
        else 0
      let stepAdj : ℚ :=
        if dailySteps ≥ 8000 then 10
        else if dailySteps < 3000 then -10
        else 0
      let stressAdj : ℚ := if stressLevel > 0.7 then -15 else 0
      { overallHealth := sleepQuality * 100,
        sleepDuration := some sleepDuration,
        sleepQuality := some sleepQuality,
        stressLevel := some stressLevel,
        scoreAdjustment := durAdj + qualAdj + stepAdj + stressAdj,
        sleepStatus :=
          if sleepDuration < 6 then "Sleep Deprived"
          else if sleepDuration < 7 then "Insufficient Sleep"
          else "Healthy Sleep",
        activityStatus := some
          (if dailySteps < 5000 then "Sedentary"
           else if dailySteps < 8000 then "Lightly Active"
           else "Active") }

/-- `getStatusText(score)` from `PersonalHealthAnalyzer.js`. -/
def getStatusText (score : ℚ) : String :=
  if score ≥ 80 then "Excellent - Thriving"
  else if score ≥ 60 then "Good - Sustainable"
  else if score ≥ 40 then "Fair - Needs Attention"
  else if score ≥ 20 then "Poor - Action Required"
  else "Critical - Immediate Intervention Needed"

/-- The band name (head word of `getStatusText`) for a score: the fixed
status banding `>=80 Excellent / >=60 Good / >=40 Fair / >=20 Poor / else
Critical` the spec describes. -/
def statusBandName (score : ℚ) : String :=
  if score ≥ 80 then "Excellent"
  else if score ≥ 60 then "Good"
  else if score ≥ 40 then "Fair"
  else if score ≥ 20 then "Poor"
  else "Critical"

/-- The ACTIVITY payload of the spec's Scenario C. -/
def scenarioCFitness : FitnessData :=
  { sleepDuration := some 5, sleepQuality := some 0.4,
    dailySteps := some 2000, stressLevel := some 0.8 }

/-! ## Recommendation engine

`generateRecommendations(userData, score, insights)` evaluates six rules in
source order.  Rules 2–4 dereference `userData.<src>.data.<field>` without
guarding `data`; in JS that throws a `TypeError` when the source object is
present but has no `data` field, so those rule evaluations are embedded as
`Except`. -/

/-- The `TypeError` a JS property read on `undefined` raises. -/
def jsTypeError : String :=
  "TypeError: cannot read properties of undefined"

/-- Rule 2: `userData.calendar && userData.calendar.data.meetingDensity > 0.6`. -/
def calendarRecs (userData : UserData) : Except String (List Recommendation) :=
  match userData.calendar with
  | none => .ok []
  | some cal =>
      match cal.data with
      | none => .error jsTypeError
      | some d =>
          if jsGt d.meetingDensity 0.6 then
            .ok [{ priority := "HIGH",
                   action := "Decline " ++ jsNumberString (d.declinableCount.getD 0)
                     ++ " optional meetings this week",
                   reason := "Schedule overbooked - create focus time",
                   category := "Calendar Optimization" }]
          else .ok []

/-- Rule 3: `userData.fitness && userData.fitness.data.sleepDuration < 6`. -/
def sleepRecs (userData : UserData) : Except String (List Recommendation) :=
  match userData.fitness with
  | none => .ok []
  | some fit =>
      match fit.data with
      | none => .error jsTypeError
      | some d =>
          if jsLt d.sleepDuration 6 then
            .ok [{ priority := "CRITICAL",
                   action := "Aim for 7-8 hours of sleep tonight",
                   reason := "Sleep deprivation affecting productivity and health",
                   category := "Health & Wellness" },
                 { priority := "MEDIUM",
                   action := "Reduce screen time 1 hour before bed",
                   reason := "Improve sleep quality",
                   category := "Health & Wellness" }]
          else .ok []

/-- Rule 4: `userData.fitness && userData.fitness.data.dailySteps < 5000`. -/
def walkRecs (userData : UserData) : Except String (List Recommendation) :=
  match userData.fitness with
  | none => .ok []
  | some fit =>
      match fit.data with
      | none => .error jsTypeError
      | some d =>
          if jsLt d.dailySteps 5000 then
            .ok [{ priority := "MEDIUM",
                   action := "Take a 15-minute walk during lunch",
                   reason := "Low daily activity detected - boost energy and focus",
                   category := "Health & Wellness" }]
          else .ok []

/-- `generateRecommendations(userData, score, insights)` from
`PersonalHealthAnalyzer.js`: the six rules in fixed evaluation order, the
successful pushes concatenated in that order. -/
def generateRecommendations (userData : UserData) (score : ℚ) (insights : Insights) :
    Except String (List Recommendation) :=
  let emailRecs : List Recommendation :=
    if insights.emailStress > 0.7 then
      [{ priority := "HIGH",
         action := "Block 2 hours for deep work tomorrow",
         reason := "High email stress detected - need uninterrupted focus time",
         category := "Email Management" },
       { priority := "MEDIUM",
         action := "Set up email filters for urgent keywords",
         reason := "Reduce reactive email checking",
         category := "Email Management" }]
    else []
  match calendarRecs userData with
  | .error e => .error e
  | .ok calRules =>
      match sleepRecs userData with
      | .error e => .error e
      | .ok sleepRules =>
          match walkRecs userData with
          | .error e => .error e
          | .ok walkRules =>
              let lowRecs : List Recommendation :=
                if score < 40 then
                  [{ priority := "CRITICAL",
                     action := "Schedule a personal review meeting with yourself",
                     reason := "Multiple health and productivity indicators are concerning",
                     category := "Overall Wellness" }]
                else []
              let highRecs : List Recommendation :=
                if score ≥ 80 then
                  [{ priority := "INFO",
                     action := "Great job! Maintain current healthy habits",
                     reason := "All productivity and health metrics look excellent",
                     category := "Positive Feedback" }]
                else []
              .ok (emailRecs ++ calRules ++ sleepRules ++ walkRules ++ lowRecs ++ highRecs)

/-! ## Main entry point -/

/-- The `baseScore` / `insights` accumulation of `analyzeProductivityHealth`
before clamping: baseline 50, then one conditional block per present
source, each adding its `scoreAdjustment` and pushing one adjustment entry. -/
def baseAndInsights (userData : UserData) : ℚ × Insights :=
  let s0 : ℚ := 50
  let i0 : Insights := { emailStress := 0, scheduleHealth := 0,
                         fitnessHealth := 0, adjustments := [] }
  let step1 : ℚ × Insights :=
    match userData.emails with
    | none => (s0, i0)
    | some e =>
        let a := calculateEmailStress e.data
        (s0 + a.scoreAdjustment,
         { i0 with emailStress := a.stressLevel,
                   adjustments := i0.adjustments ++
                     [{ category := "Email Stress", impact := a.scoreAdjustment,
                        detail := a.stressStatus }] })
  let step2 : ℚ × Insights :=
    match userData.calendar with
    | none => step1
    | some c =>
        let a := calculateMeetingDensity c.data
        (step1.1 + a.scoreAdjustment,
         { step1.2 with scheduleHealth := a.density,
                        adjustments := step1.2.adjustments ++
                          [{ category := "Schedule Health", impact := a.scoreAdjustment,
                             detail := a.scheduleStatus }] })
  match userData.fitness with
  | none => step2
  | some f =>
      let a := analyzeSleepPattern f.data
      (step2.1 + a.scoreAdjustment,
       { step2.2 with fitnessHealth := a.overallHealth,
                      adjustments := step2.2.adjustments ++
                        [{ category := "Sleep & Activity", impact := a.scoreAdjustment,
                           detail := a.sleepStatus }] })

/-- `Math.max(0, Math.min(100, baseScore))` — the final composite score. -/
def finalScore (userData : UserData) : ℚ :=
  max 0 (min 100 (baseAndInsights userData).1)

/-- `analyzeProductivityHealth(userData)` from `PersonalHealthAnalyzer.js`.
`now` is the string `new Date().toISOString()` yields at call time; a JS
`TypeError` thrown inside `generateRecommendations` propagates out as
`Except.error`. -/
def analyzeProductivityHealth (now : String) (userData : UserData) :
    Except String AnalysisResult :=
  let score := finalScore userData
  let insights := (baseAndInsights userData).2
  match generateRecommendations userData score insights with
  | .error e => .error e
  | .ok recs =>
      .ok { score := score,
            status := getStatusText score,
            insights := insights,
            recommendations := recs,
            timestamp := now }

/-- The clock-independent part of an evaluation outcome: everything except
the `timestamp` field. -/
def outcomeCore (r : Except String AnalysisResult) :
    Except String (ℚ × String × Insights × List Recommendation) :=
  Except.map (fun a => (a.score, a.status, a.insights, a.recommendations)) r

/-- The empty `userData` object: no source present. -/
def emptyUserData : UserData := {}

/-! ## EMAIL normalizer (`api/gmail/stress-level.js`)

The endpoint lists up to 50 inbox messages, inspects the first 20
(subject keywords and the `UNREAD` label), and produces the stress
payload.  A message is modelled by its subject and label ids. -/

/-- One Gmail message as the analysis loop sees it. -/
structure GmailMessage where
  subject : String
  labelIds : List String
  deriving DecidableEq, Repr

/-- The stress keyword list of `stress-level.js`. -/
def stressKeywords : List String :=
  ["urgent", "asap", "deadline", "critical",
   "important", "immediately", "emergency", "action required"]

/-- `p` occurs at the head of `l` (character-list version of
`String.startsWith`). -/
def charsStartWith : List Char → List Char → Bool
  | [], _ => true
  | _ :: _, [] => false
  | a :: as, b :: bs => a == b && charsStartWith as bs

/-- `p` occurs somewhere inside `l` (JS `String.prototype.includes`). -/
def charsContain (p : List Char) : List Char → Bool
  | [] => charsStartWith p []
  | a :: rest => charsStartWith p (a :: rest) || charsContain p rest

/-- `subject.toLowerCase().includes(keyword)` for one of the (already
lower-case) stress keywords. -/
def hasStressKeyword (subject : String) : Bool :=
  stressKeywords.any fun k =>
    charsContain k.toList (subject.toList.map Char.toLower)

/-- The `urgentCount` accumulated over `messages.slice(0, 20)`. -/
def urgentCountOf (messages : List GmailMessage) : ℕ :=
  ((messages.take 20).filter fun m => hasStressKeyword m.subject).length

/-- The `unreadCount` accumulated over `messages.slice(0, 20)`. -/
def unreadCountOf (messages : List GmailMessage) : ℕ :=
  ((messages.take 20).filter fun m => m.labelIds.contains "UNREAD").length

/-- The ratio-and-weighting computation of `stress-level.js`:
`urgentRatio`/`unreadRatio` guarded against `totalEmails = 0`, combined as
`0.6 * urgentRatio + 0.4 * unreadRatio`. -/
def baseStressOf (messages : List GmailMessage) : ℚ :=
  let totalEmails : ℕ := messages.length
  let urgentShare : ℚ :=
    if 0 < totalEmails then (urgentCountOf messages : ℚ) / totalEmails else 0
  let unreadShare : ℚ :=
    if 0 < totalEmails then (unreadCountOf messages : ℚ) / totalEmails else 0
  0.6 * urgentShare + 0.4 * unreadShare

/-- The `data` object of the endpoint's response:
`stressLevel = parseFloat(baseStress.toFixed(3))` plus the raw counts. -/
def emailStressData (messages : List GmailMessage) : EmailData :=
  { stressLevel := some (round3 (baseStressOf messages)),
    urgentCount := some (urgentCountOf messages : ℚ),
    totalEmails := some (messages.length : ℚ),
    unreadCount := some (unreadCountOf messages : ℚ) }

/-- Modelled from the spec: the §4.1 EMAIL magnitude formula
`0.6 * (urgentCount/totalEmails) + 0.4 * (unreadCount/totalEmails)` with
`totalEmails = 0` treated as magnitude 0, stated over the raw counts. -/
def specEmailMagnitude (urgent unread total : ℕ) : ℚ :=
  if total = 0 then 0
  else 0.6 * ((urgent : ℚ) / total) + 0.4 * ((unread : ℚ) / total)

/-! ## CALENDAR normalizer (`api/calendar/schedule-health.js`) -/

/-- One attendee record (only the fields the loop reads). -/
structure Attendee where
  self : Bool := false
  optional : Bool := false
  responseStatus : String := ""
  deriving DecidableEq, Repr

/-- One calendar event: attendee list and start/end instants in
milliseconds (the JS `Date` values). -/
structure CalEvent where
  attendees : List Attendee := []
  startMs : ℚ := 0
  endMs : ℚ := 0
  deriving DecidableEq, Repr

/-- `(end - start) / (1000 * 60)` — event duration in minutes. -/
def eventMinutes (e : CalEvent) : ℚ := (e.endMs - e.startMs) / 60000

/-- The events the loop counts as meetings (`attendees.length > 0`). -/
def meetingEvents (events : List CalEvent) : List CalEvent :=
  events.filter fun e => e.attendees.length > 0

/-- The accumulated `meetingMinutes`. -/
def meetingMinutesOf (events : List CalEvent) : ℚ :=
  ((meetingEvents events).map eventMinutes).sum

/-- The accumulated `declinableCount`: meetings where the `self` attendee
is optional or tentative. -/
def declinableCountOf (events : List CalEvent) : ℕ :=
  ((meetingEvents events).filter fun e =>
    match e.attendees.find? (·.self) with
    | some a => a.optional || a.responseStatus == "tentative"
    | none => false).length

/-- `meetingDensity = Math.min(1.0, meetingMinutes / 480)` before rounding. -/
def rawDensityOf (events : List CalEvent) : ℚ :=
  min 1 (meetingMinutesOf events / 480)

/-- `focusTimeHours = Math.max(0, (480 - meetingMinutes) / 60)` before
rounding. -/
def rawFocusHoursOf (events : List CalEvent) : ℚ :=
  max 0 ((480 - meetingMinutesOf events) / 60)

/-- The `data` object of the endpoint's response. -/
def scheduleHealthData (events : List CalEvent) : CalendarData :=
  { meetingDensity := some (round2 (rawDensityOf events)),
    totalEvents := some (events.length : ℚ),
    meetingCount := some ((meetingEvents events).length : ℚ),
    focusTimeHours := some (round1 (rawFocusHoursOf events)),
    declinableCount := some (declinableCountOf events : ℚ) }

/-! ## ACTIVITY generator (`server/personal-proxy.js`, `/api/fitness/summary`)

The simulated payload draws `sleepQuality = 0.5 + Math.random() * 0.3`
and surfaces `parseFloat(sleepQuality.toFixed(2))`.  The random draw is an
explicit parameter `r` with the `Math.random()` contract `0 ≤ r < 1`. -/

/-- The surfaced `sleepQuality` of the fitness simulation for a random
draw `r`. -/
def simulatedSleepQuality (r : ℚ) : ℚ := round2 (0.5 + r * 0.3)

/-! ## Derived quantities and helper lemmas -/

/-- Sum of the `impact` fields of the per-source adjustment audit list. -/
def impactSum (ins : Insights) : ℚ := (ins.adjustments.map Adjustment.impact).sum

/-- The email delta of an evaluation (0 when the source is absent). -/
def emailDelta (u : UserData) : ℚ :=
  match u.emails with
  | none => 0
  | some e => (calculateEmailStress e.data).scoreAdjustment

/-- The combined calendar + fitness delta of an evaluation. -/
def nonEmailDelta (u : UserData) : ℚ :=
  (match u.calendar with
   | none => 0
   | some c => (calculateMeetingDensity c.data).scoreAdjustment) +
  (match u.fitness with
   | none => 0
   | some f => (analyzeSleepPattern f.data).scoreAdjustment)

/-- The same evaluation input with the emails source removed. -/
def removeEmails (u : UserData) : UserData := { u with emails := none }

lemma base_eq_impactSum (u : UserData) :
    (baseAndInsights u).1 = 50 + impactSum (baseAndInsights u).2 := by
  rcases u with ⟨e, c, f⟩
  cases e <;> cases c <;> cases f <;>
    simp [baseAndInsights, impactSum] <;> ring

lemma base_eq_deltas (u : UserData) :
    (baseAndInsights u).1 = 50 + emailDelta u + nonEmailDelta u := by
  rcases u with ⟨e, c, f⟩
  cases e <;> cases c <;> cases f <;>
    simp [baseAndInsights, emailDelta, nonEmailDelta] <;> ring

lemma clamp_nonneg (v : ℚ) : 0 ≤ clamp v 0 100 := le_max_left 0 _

lemma clamp_le_hundred (v : ℚ) : clamp v 0 100 ≤ 100 :=
  max_le (by norm_num) (min_le_left _ _)

lemma clamp_add_twenty (x : ℚ) :
    clamp x 0 100 ≤ clamp (x + 20) 0 100 ∧
    clamp (x + 20) 0 100 ≤ clamp x 0 100 + 20 := by
  unfold clamp
  constructor <;> (simp only [max_def, min_def]; split_ifs <;> linarith)

lemma floor_round_bounds (q : ℚ) (n : ℕ) (hn : 0 < n) (h0 : 0 ≤ q) (h1 : q ≤ 1) :
    0 ≤ ((⌊q * n + 1/2⌋ : ℤ) : ℚ) / n ∧ ((⌊q * n + 1/2⌋ : ℤ) : ℚ) / n ≤ 1 := by
  have hcpos : (0 : ℚ) < n := by exact_mod_cast hn
  have hnn : (0 : ℤ) ≤ ⌊q * n + 1/2⌋ :=
    Int.floor_nonneg.mpr (by nlinarith)
  have hfl : (⌊q * n + 1/2⌋ : ℚ) ≤ q * n + 1/2 := Int.floor_le _
  have hqc : q * n ≤ 1 * n := mul_le_mul_of_nonneg_right h1 hcpos.le
  have h2 : (⌊q * n + 1/2⌋ : ℚ) < (n : ℚ) + 1 := by linarith
  have h3 : ⌊q * n + 1/2⌋ < (n : ℤ) + 1 := by exact_mod_cast h2
  have h4 : ⌊q * n + 1/2⌋ ≤ (n : ℤ) := by omega
  constructor
  · exact div_nonneg (by exact_mod_cast hnn) hcpos.le
  · rw [div_le_one hcpos]
    exact_mod_cast h4

lemma round3_bounds (q : ℚ) (h0 : 0 ≤ q) (h1 : q ≤ 1) :
    0 ≤ round3 q ∧ round3 q ≤ 1 := by
  unfold round3
  have h := floor_round_bounds q 1000 (by norm_num) h0 h1
  simpa using h

lemma round2_bounds (q : ℚ) (h0 : 0 ≤ q) (h1 : q ≤ 1) :
    0 ≤ round2 q ∧ round2 q ≤ 1 := by
  unfold round2
  have h := floor_round_bounds q 100 (by norm_num) h0 h1
  simpa using h

lemma urgentCount_le_length (messages : List GmailMessage) :
    urgentCountOf messages ≤ messages.length := by
  calc urgentCountOf messages ≤ (messages.take 20).length :=
        List.length_filter_le _ _
    _ ≤ messages.length := by
        rw [List.length_take]; exact min_le_right _ _

lemma unreadCount_le_length (messages : List GmailMessage) :
    unreadCountOf messages ≤ messages.length := by
  calc unreadCountOf messages ≤ (messages.take 20).length :=
        List.length_filter_le _ _
    _ ≤ messages.length := by
        rw [List.length_take]; exact min_le_right _ _

lemma baseStress_bounds (messages : List GmailMessage) :
    0 ≤ baseStressOf messages ∧ baseStressOf messages ≤ 1 := by
  unfold baseStressOf
  by_cases h : 0 < messages.length
  · have hpos : (0 : ℚ) < messages.length := by exact_mod_cast h
    have hu : (urgentCountOf messages : ℚ) / messages.length ≤ 1 := by
      rw [div_le_one hpos]
      exact_mod_cast urgentCount_le_length messages
    have hn : (unreadCountOf messages : ℚ) / messages.length ≤ 1 := by
      rw [div_le_one hpos]
      exact_mod_cast unreadCount_le_length messages
    have hu0 : (0 : ℚ) ≤ (urgentCountOf messages : ℚ) / messages.length :=
      div_nonneg (Nat.cast_nonneg _) (Nat.cast_nonneg _)
    have hn0 : (0 : ℚ) ≤ (unreadCountOf messages : ℚ) / messages.length :=
      div_nonneg (Nat.cast_nonneg _) (Nat.cast_nonneg _)
    simp only [h, if_true]
    constructor <;> nlinarith
  · simp only [h, if_false]
    norm_num

lemma meetingMinutes_nonneg (events : List CalEvent)
    (h : ∀ e ∈ events, e.startMs ≤ e.endMs) :
    0 ≤ meetingMinutesOf events := by
  unfold meetingMinutesOf
  apply List.sum_nonneg
  intro x hx
  rcases List.mem_map.mp hx with ⟨e, he, rfl⟩
  have hmem : e ∈ events := (List.mem_filter.mp he).1
  have := h e hmem
  unfold eventMinutes
  have h60 : (0 : ℚ) < 60000 := by norm_num
  apply div_nonneg _ h60.le
  linarith

/-! ## Claim theorems -/

/-- C1 (counterexample): the claim that two calls of
`analyzeProductivityHealth` with identical `userData` return identical
results *including the timestamp field* is false: the `timestamp` field is
`new Date().toISOString()`, so two calls whose clock readings differ
(modelled by the explicit `now` parameter) disagree on it even for the
same (empty) `userData`. -/
theorem analyze_not_clock_independent :
    analyzeProductivityHealth "2024-01-01T00:00:00.000Z" emptyUserData ≠
      analyzeProductivityHealth "2024-01-01T00:00:01.000Z" emptyUserData := by
  have h1 : analyzeProductivityHealth "2024-01-01T00:00:00.000Z" emptyUserData =
      .ok { score := 50, status := "Fair - Needs Attention",
            insights := { emailStress := 0, scheduleHealth := 0,
                          fitnessHealth := 0, adjustments := [] },
            recommendations := [], timestamp := "2024-01-01T00:00:00.000Z" } := by
    norm_num [analyzeProductivityHealth, finalScore, baseAndInsights,
      generateRecommendations, calendarRecs, sleepRecs, walkRecs,
      getStatusText, emptyUserData]
  have h2 : analyzeProductivityHealth "2024-01-01T00:00:01.000Z" emptyUserData =
      .ok { score := 50, status := "Fair - Needs Attention",
            insights := { emailStress := 0, scheduleHealth := 0,
                          fitnessHealth := 0, adjustments := [] },
            recommendations := [], timestamp := "2024-01-01T00:00:01.000Z" } := by
    norm_num [analyzeProductivityHealth, finalScore, baseAndInsights,
      generateRecommendations, calendarRecs, sleepRecs, walkRecs,
      getStatusText, emptyUserData]
  rw [h1, h2]
  intro h
  simp only [Except.ok.injEq, AnalysisResult.mk.injEq] at h
  exact absurd h.2.2.2.2 (by decide)

/-- C1 (amended): the engine is deterministic in everything except the
`timestamp` field — for any two clock readings, identical `userData`
yields identical score, status label, insights and recommendation list
(and an identical error when the evaluation throws). -/
theorem analyze_deterministic_modulo_timestamp (now1 now2 : String) (u : UserData) :
    outcomeCore (analyzeProductivityHealth now1 u) =
      outcomeCore (analyzeProductivityHealth now2 u) := by
  unfold analyzeProductivityHealth outcomeCore
  cases h : generateRecommendations u (finalScore u) (baseAndInsights u).2 <;>
    simp [h, Except.map]

/-- C2 (code bug): the spec demands that the engine never throws and in
particular that a source object present without its `data` field must not
abort the evaluation; but `generateRecommendations` dereferences
`userData.calendar.data.meetingDensity` unguarded, so the input
`{ calendar: {} }` makes `analyzeProductivityHealth` throw a `TypeError`
instead of returning a result. -/
theorem analyze_errors_on_dataless_calendar :
    analyzeProductivityHealth "t" { calendar := some {} } = .error jsTypeError := by
  norm_num [analyzeProductivityHealth, finalScore, baseAndInsights,
    generateRecommendations, calendarRecs, calculateMeetingDensity,
    getStatusText]

/-- C3: evaluating with zero sources present yields score 50, the "Fair"
status band (status text `"Fair - Needs Attention"`), and an empty
recommendation list. -/
theorem analyze_empty_baseline :
    analyzeProductivityHealth "t" emptyUserData =
      .ok { score := 50, status := "Fair - Needs Attention",
            insights := { emailStress := 0, scheduleHealth := 0,
                          fitnessHealth := 0, adjustments := [] },
            recommendations := [], timestamp := "t" } ∧
    statusBandName 50 = "Fair" ∧ getStatusText 50 = "Fair - Needs Attention" := by
  refine ⟨?_, by norm_num [statusBandName], by norm_num [getStatusText]⟩
  norm_num [analyzeProductivityHealth, finalScore, baseAndInsights,
    generateRecommendations, calendarRecs, sleepRecs, walkRecs,
    getStatusText, emptyUserData]

/-- C4: whenever `analyzeProductivityHealth` returns a result, its score
equals `clamp(50 + sum of the per-source adjustments of the present
sources, 0, 100)` — the adjustments being exactly the `impact` entries of
the returned audit list — and is therefore always within `[0, 100]`. -/
theorem score_clamped_sum_of_adjustments (now : String) (u : UserData)
    (res : AnalysisResult) (h : analyzeProductivityHealth now u = .ok res) :
    res.score = clamp (50 + impactSum res.insights) 0 100 ∧
    0 ≤ res.score ∧ res.score ≤ 100 := by
  unfold analyzeProductivityHealth at h
  cases hg : generateRecommendations u (finalScore u) (baseAndInsights u).2 with
  | error e => simp only [hg] at h; exact absurd h (by simp)
  | ok recs =>
      simp only [hg, Except.ok.injEq] at h
      subst h
      refine ⟨?_, clamp_nonneg _, clamp_le_hundred _⟩
      show finalScore u = clamp (50 + impactSum (baseAndInsights u).2) 0 100
      unfold finalScore clamp
      rw [← base_eq_impactSum]

/-- The insights object of an evaluation with no sources present. -/
def emptyInsights : Insights :=
  { emailStress := 0, scheduleHealth := 0, fitnessHealth := 0, adjustments := [] }

/-- The full result of the empty evaluation at clock reading `now`. -/
def emptyResult (now : String) : AnalysisResult :=
  { score := 50, status := "Fair - Needs Attention", insights := emptyInsights,
    recommendations := [], timestamp := now }

/-- Witness for C4 at the concrete empty input. -/
theorem score_clamped_sum_of_adjustments_witness :
    (emptyResult "t").score = clamp (50 + impactSum (emptyResult "t").insights) 0 100 ∧
    0 ≤ (emptyResult "t").score ∧ (emptyResult "t").score ≤ 100 :=
  score_clamped_sum_of_adjustments "t" emptyUserData (emptyResult "t")
    (by norm_num [analyzeProductivityHealth, finalScore, baseAndInsights,
      generateRecommendations, calendarRecs, sleepRecs, walkRecs,
      getStatusText, emptyUserData, emptyResult, emptyInsights])

/-- C5: for every EMAIL payload object, `calculateEmailStress` bands the
payload magnitude (`stressLevel`, defaulted to 0) with strict `<`
thresholds in ascending order — `<0.3 → +20`, `<0.5 → +10`, `<0.7 → -10`,
`else → -25` — plus an additional `-10` exactly when `urgentCount > 3`;
and a magnitude of exactly `0.3` lands in the `+10` tier, not `+20`. -/
theorem email_adjustment_banding :
    (∀ d : EmailData,
      (calculateEmailStress (some d)).scoreAdjustment =
        (if d.stressLevel.getD 0 < 0.3 then 20
         else if d.stressLevel.getD 0 < 0.5 then 10
         else if d.stressLevel.getD 0 < 0.7 then (-10 : ℚ)
         else -25) +
        (if d.urgentCount.getD 0 > 3 then (-10 : ℚ) else 0)) ∧
    (calculateEmailStress (some { stressLevel := some 0.3 })).scoreAdjustment = 10 := by
  constructor
  · intro d
    simp only [calculateEmailStress]
    split_ifs <;> ring
  · norm_num [calculateEmailStress]

/-- The single-source input of Scenario C. -/
def scenarioCInput : UserData :=
  { fitness := some { data := some scenarioCFitness } }

/-- C6: Scenario C — ACTIVITY `{sleepDuration:5, sleepQuality:0.4,
dailySteps:2000, stressLevel:0.8}` yields the activity delta
`-20 - 10 - 10 - 15 = -55`, composite `clamp(50-55,0,100) = 0`, and exactly
four recommendations in fixed rule-evaluation order: CRITICAL sleep,
MEDIUM reduce screen time, MEDIUM take a walk, CRITICAL self-review. -/
theorem activity_scenario_c :
    (analyzeSleepPattern (some scenarioCFitness)).scoreAdjustment = -55 ∧
    analyzeProductivityHealth "t" scenarioCInput =
      .ok { score := 0, status := "Critical - Immediate Intervention Needed",
            insights := { emailStress := 0, scheduleHealth := 0, fitnessHealth := 40,
                          adjustments := [{ category := "Sleep & Activity",
                                            impact := -55,
                                            detail := "Sleep Deprived" }] },
            recommendations :=
              [{ priority := "CRITICAL",
                 action := "Aim for 7-8 hours of sleep tonight",
                 reason := "Sleep deprivation affecting productivity and health",
                 category := "Health & Wellness" },
               { priority := "MEDIUM",
                 action := "Reduce screen time 1 hour before bed",
                 reason := "Improve sleep quality",
                 category := "Health & Wellness" },
               { priority := "MEDIUM",
                 action := "Take a 15-minute walk during lunch",
                 reason := "Low daily activity detected - boost energy and focus",
                 category := "Health & Wellness" },
               { priority := "CRITICAL",
                 action := "Schedule a personal review meeting with yourself",
                 reason := "Multiple health and productivity indicators are concerning",
                 category := "Overall Wellness" }],
            timestamp := "t" } := by
  constructor
  · norm_num [analyzeSleepPattern, scenarioCFitness]
  · norm_num [analyzeProductivityHealth, finalScore, baseAndInsights,
      generateRecommendations, calendarRecs, sleepRecs, walkRecs, jsLt,
      analyzeSleepPattern, scenarioCFitness, scenarioCInput, getStatusText]

/-- The CALENDAR metric of Scenario B: density 0.75, one focus hour. -/
def scenarioBCalendar : CalendarData :=
  { meetingDensity := some 0.75, focusTimeHours := some 1 }

/-- The single-source input of Scenario B. -/
def scenarioBInput : UserData :=
  { calendar := some { data := some scenarioBCalendar } }

/-- C7: a single CALENDAR source with meeting density 0.75 and one focus
hour gets the `<0.8` band's `-15` with no focus bonus, a composite of 35,
and the status of the `>=20` band — "Poor" (`"Poor - Action Required"`) —
under the fixed banding `>=80 Excellent / >=60 Good / >=40 Fair /
>=20 Poor / else Critical`, checked here on both sides of every
boundary. -/
theorem calendar_scenario_b_status_banding :
    (calculateMeetingDensity (some scenarioBCalendar)).scoreAdjustment = -15 ∧
    analyzeProductivityHealth "t" scenarioBInput =
      .ok { score := 35, status := "Poor - Action Required",
            insights := { emailStress := 0, scheduleHealth := 0.75, fitnessHealth := 0,
                          adjustments := [{ category := "Schedule Health",
                                            impact := -15,
                                            detail := "Overbooked" }] },
            recommendations :=
              [{ priority := "HIGH",
                 action := "Decline 0 optional meetings this week",
                 reason := "Schedule overbooked - create focus time",
                 category := "Calendar Optimization" },
               { priority := "CRITICAL",
                 action := "Schedule a personal review meeting with yourself",
                 reason := "Multiple health and productivity indicators are concerning",
                 category := "Overall Wellness" }],
            timestamp := "t" } ∧
    statusBandName 35 = "Poor" ∧
    statusBandName 100 = "Excellent" ∧ statusBandName 80 = "Excellent" ∧
    statusBandName 79 = "Good" ∧ statusBandName 60 = "Good" ∧
    statusBandName 59 = "Fair" ∧ statusBandName 40 = "Fair" ∧
    statusBandName 39 = "Poor" ∧ statusBandName 20 = "Poor" ∧
    statusBandName 19 = "Critical" := by
  refine ⟨?_, ?_, ?_⟩
  · norm_num [calculateMeetingDensity, scenarioBCalendar]
  · norm_num [analyzeProductivityHealth, finalScore, baseAndInsights,
      generateRecommendations, calendarRecs, sleepRecs, walkRecs, jsGt,
      calculateMeetingDensity, scenarioBCalendar, scenarioBInput,
      getStatusText, jsNumberString]
    decide
  · norm_num [statusBandName]

/-- A three-message inbox: one urgent-and-unread message, two benign read
messages. -/
def exampleInboxMessages : List GmailMessage :=
  [{ subject := "URGENT meeting", labelIds := ["UNREAD"] },
   { subject := "hello", labelIds := [] },
   { subject := "notes", labelIds := [] }]

lemma round3_zero : round3 0 = 0 := by
  have hf : (⌊(0 : ℚ) * 1000 + 1/2⌋ : ℤ) = 0 := by norm_num [Int.floor_eq_iff]
  unfold round3
  rw [hf]
  norm_num

/-- C8 (counterexample): the surfaced EMAIL magnitude is **not** exactly
`0.6 * (urgentCount/totalEmails) + 0.4 * (unreadCount/totalEmails)`: the
endpoint rounds `baseStress` with `toFixed(3)`.  For a 3-message inbox
with one urgent and one unread message the formula gives `1/3` but the
payload carries `0.333`. -/
theorem email_magnitude_not_exact_formula :
    (emailStressData exampleInboxMessages).stressLevel = some (333/1000) ∧
    specEmailMagnitude (urgentCountOf exampleInboxMessages)
      (unreadCountOf exampleInboxMessages) exampleInboxMessages.length = 1/3 ∧
    (emailStressData exampleInboxMessages).stressLevel ≠
      some (specEmailMagnitude (urgentCountOf exampleInboxMessages)
        (unreadCountOf exampleInboxMessages) exampleInboxMessages.length) := by
  have hu : urgentCountOf exampleInboxMessages = 1 := by decide
  have hn : unreadCountOf exampleInboxMessages = 1 := by decide
  have hl : exampleInboxMessages.length = 3 := by decide
  have hbase : baseStressOf exampleInboxMessages = 1/3 := by
    unfold baseStressOf
    rw [hu, hn, hl]
    norm_num
  have hfloor : (⌊(1/3 : ℚ) * 1000 + 1/2⌋ : ℤ) = 333 := by
    norm_num [Int.floor_eq_iff]
  have h1 : (emailStressData exampleInboxMessages).stressLevel = some (333/1000) := by
    simp only [emailStressData, hbase, round3, hfloor]
    norm_num
  have h2 : specEmailMagnitude (urgentCountOf exampleInboxMessages)
      (unreadCountOf exampleInboxMessages) exampleInboxMessages.length = 1/3 := by
    rw [hu, hn, hl]
    norm_num [specEmailMagnitude]
  refine ⟨h1, h2, ?_⟩
  rw [h1, h2]
  intro h
  simp only [Option.some.injEq] at h
  exact absurd h (by norm_num)

/-- C8 (amended): the surfaced EMAIL magnitude equals the §4.1 formula
*rounded to three decimal places* (`toFixed(3)`), and an empty inbox
(`totalEmails = 0`) yields magnitude 0 via the division guard rather than
a fault. -/
theorem email_magnitude_rounded_formula (messages : List GmailMessage) :
    (emailStressData messages).stressLevel =
      some (round3 (specEmailMagnitude (urgentCountOf messages)
        (unreadCountOf messages) messages.length)) ∧
    (messages.length = 0 → (emailStressData messages).stressLevel = some 0) := by
  have hbase : baseStressOf messages =
      specEmailMagnitude (urgentCountOf messages) (unreadCountOf messages)
        messages.length := by
    by_cases h0 : messages.length = 0
    · simp [baseStressOf, specEmailMagnitude, h0]
    · have hpos : 0 < messages.length := Nat.pos_of_ne_zero h0
      simp [baseStressOf, specEmailMagnitude, h0, hpos]
  constructor
  · simp only [emailStressData, hbase]
  · intro h0
    simp only [emailStressData, hbase, specEmailMagnitude, h0, if_true]
    rw [round3_zero]

/-- Witness for C8 (amended) at the empty inbox. -/
theorem email_magnitude_rounded_formula_witness :
    (emailStressData []).stressLevel = some 0 :=
  (email_magnitude_rounded_formula []).2 rfl

/-- A pathological calendar event: one (self) attendee, but its end
instant precedes its start instant by two hours. -/
def backwardsEvent : CalEvent :=
  { attendees := [{ self := true, optional := false, responseStatus := "accepted" }],
    startMs := 7200000, endMs := 0 }

/-- C9 (counterexample): the CALENDAR magnitude is **not** clamped to
`[0,1]` for pathological input: `Math.min(1.0, ...)` only clamps from
above, so an event whose end precedes its start yields the surfaced
meeting density `-0.25`, below 0. -/
theorem calendar_density_below_zero :
    (scheduleHealthData [backwardsEvent]).meetingDensity = some (-(1/4)) ∧
    ¬ (0 ≤ (-(1/4) : ℚ) ∧ (-(1/4) : ℚ) ≤ 1) := by
  constructor
  · have hmm : meetingMinutesOf [backwardsEvent] = -120 := by
      norm_num [meetingMinutesOf, meetingEvents, backwardsEvent, eventMinutes]
    have hraw : rawDensityOf [backwardsEvent] = -(1/4) := by
      rw [rawDensityOf, hmm]
      norm_num
    have hfloor : (⌊(-(1/4) : ℚ) * 100 + 1/2⌋ : ℤ) = -25 := by
      norm_num [Int.floor_eq_iff]
    simp only [scheduleHealthData, hraw, round2, hfloor]
    norm_num
  · norm_num

/-- C9 (amended): the surfaced magnitudes lie in `[0,1]` for the EMAIL
normalizer unconditionally, for the CALENDAR normalizer whenever no event
ends before it starts (the `Math.min` clamp protects only the upper end),
and for the simulated ACTIVITY `sleepQuality` for every `Math.random()`
draw `r ∈ [0,1)`. -/
theorem magnitudes_bounded_amended (messages : List GmailMessage)
    (events : List CalEvent) (r : ℚ)
    (hev : ∀ e ∈ events, e.startMs ≤ e.endMs) (hr0 : 0 ≤ r) (hr1 : r < 1) :
    (0 ≤ (emailStressData messages).stressLevel.getD 0 ∧
      (emailStressData messages).stressLevel.getD 0 ≤ 1) ∧
    (0 ≤ (scheduleHealthData events).meetingDensity.getD 0 ∧
      (scheduleHealthData events).meetingDensity.getD 0 ≤ 1) ∧
    (0 ≤ simulatedSleepQuality r ∧ simulatedSleepQuality r ≤ 1) := by
  refine ⟨?_, ?_, ?_⟩
  · have hb := baseStress_bounds messages
    have := round3_bounds (baseStressOf messages) hb.1 hb.2
    simpa [emailStressData] using this
  · have hmm := meetingMinutes_nonneg events hev
    have h0 : 0 ≤ rawDensityOf events := by
      unfold rawDensityOf
      exact le_min (by norm_num) (div_nonneg hmm (by norm_num))
    have h1 : rawDensityOf events ≤ 1 := min_le_left _ _
    have := round2_bounds (rawDensityOf events) h0 h1
    simpa [scheduleHealthData] using this
  · have h0 : (0 : ℚ) ≤ 0.5 + r * 0.3 := by nlinarith
    have h1 : (0.5 : ℚ) + r * 0.3 ≤ 1 := by nlinarith
    have := round2_bounds (0.5 + r * 0.3) h0 h1
    simpa [simulatedSleepQuality] using this

/-- Witness for C9 (amended) at the empty inbox, the empty event list and
the random draw 0. -/
theorem magnitudes_bounded_amended_witness :
    (0 ≤ (emailStressData []).stressLevel.getD 0 ∧
      (emailStressData []).stressLevel.getD 0 ≤ 1) ∧
    (0 ≤ (scheduleHealthData []).meetingDensity.getD 0 ∧
      (scheduleHealthData []).meetingDensity.getD 0 ≤ 1) ∧
    (0 ≤ simulatedSleepQuality 0 ∧ simulatedSleepQuality 0 ≤ 1) :=
  magnitudes_bounded_amended [] [] 0 (by simp) (by norm_num) (by norm_num)

/-- A fitness payload that alone earns `+40` (optimal sleep, good quality,
active, low stress). -/
def optimalFitness : FitnessData :=
  { sleepDuration := some 8, sleepQuality := some 0.8,
    dailySteps := some 9000, stressLevel := some 0 }

/-- Optimal fitness plus an emails source that is present with empty
payload data. -/
def emptyEmailPlusFitness : UserData :=
  { emails := some { data := some {} },
    fitness := some { data := some optimalFitness } }

/-- The same input with the emails source absent. -/
def fitnessOnly : UserData :=
  { fitness := some { data := some optimalFitness } }

/-- C10 (counterexample): a present-but-empty EMAIL source does **not**
always raise the composite by 20 points: with an optimal fitness source
(`+40`) the no-email score is 90 but the with-email score clamps at 100 —
a rise of only 10. -/
theorem empty_email_bonus_clamped :
    Except.map AnalysisResult.score (analyzeProductivityHealth "t" emptyEmailPlusFitness) =
      .ok 100 ∧
    Except.map AnalysisResult.score (analyzeProductivityHealth "t" fitnessOnly) =
      .ok 90 ∧
    (100 : ℚ) ≠ 90 + 20 := by
  refine ⟨?_, ?_, by norm_num⟩
  · norm_num [analyzeProductivityHealth, finalScore, baseAndInsights,
      generateRecommendations, calendarRecs, sleepRecs, walkRecs, jsLt,
      calculateEmailStress, analyzeSleepPattern, optimalFitness,
      emptyEmailPlusFitness, getStatusText, Except.map]
  · norm_num [analyzeProductivityHealth, finalScore, baseAndInsights,
      generateRecommendations, calendarRecs, sleepRecs, walkRecs, jsLt,
      analyzeSleepPattern, optimalFitness, fitnessOnly, getStatusText,
      Except.map]

/-- C10 (amended): an emails source present whose data carries no
`stressLevel` (or `stressLevel` 0) and at most 3 urgent mails gets the
lowest-tier `+20` adjustment (not a neutral 0), so the composite equals
`clamp(50 + 20 + rest, 0, 100)` against `clamp(50 + rest, 0, 100)` without
the source: the score never drops and rises by at most — not always
exactly — 20 points; clamping can absorb part of the bonus. -/
theorem empty_email_source_plus_twenty (u : UserData) (d : EmailData)
    (hpresent : u.emails = some { data := some d })
    (hstress : d.stressLevel.getD 0 = 0)
    (hurgent : d.urgentCount.getD 0 ≤ 3) :
    (calculateEmailStress (some d)).scoreAdjustment = 20 ∧
    finalScore u = clamp (50 + 20 + nonEmailDelta u) 0 100 ∧
    finalScore (removeEmails u) = clamp (50 + nonEmailDelta u) 0 100 ∧
    finalScore (removeEmails u) ≤ finalScore u ∧
    finalScore u ≤ finalScore (removeEmails u) + 20 := by
  have hadj : (calculateEmailStress (some d)).scoreAdjustment = 20 := by
    simp only [calculateEmailStress, hstress]
    rw [if_neg (not_lt.mpr hurgent), if_pos (by norm_num)]
  have hdelta : emailDelta u = 20 := by
    simp only [emailDelta, hpresent]
    exact hadj
  have hdelta0 : emailDelta (removeEmails u) = 0 := by
    simp [emailDelta, removeEmails]
  have hrest : nonEmailDelta (removeEmails u) = nonEmailDelta u := by
    simp [nonEmailDelta, removeEmails]
  have hwith : finalScore u = clamp (50 + 20 + nonEmailDelta u) 0 100 := by
    unfold finalScore clamp
    rw [base_eq_deltas, hdelta]
  have hwithout : finalScore (removeEmails u) = clamp (50 + nonEmailDelta u) 0 100 := by
    unfold finalScore clamp
    rw [base_eq_deltas, hdelta0, hrest]
    ring_nf
  have hmono := clamp_add_twenty (50 + nonEmailDelta u)
  refine ⟨hadj, hwith, hwithout, ?_, ?_⟩
  · rw [hwith, hwithout]
    have : 50 + nonEmailDelta u + 20 = 50 + 20 + nonEmailDelta u := by ring
    rw [← this]
    exact hmono.1
  · rw [hwith, hwithout]
    have : 50 + nonEmailDelta u + 20 = 50 + 20 + nonEmailDelta u := by ring
    rw [← this]
    exact hmono.2

/-- Witness for C10 (amended) at the concrete optimal-fitness input. -/
theorem empty_email_source_plus_twenty_witness :
    (calculateEmailStress (some {})).scoreAdjustment = 20 ∧
    finalScore emptyEmailPlusFitness =
      clamp (50 + 20 + nonEmailDelta emptyEmailPlusFitness) 0 100 ∧
    finalScore (removeEmails emptyEmailPlusFitness) =
      clamp (50 + nonEmailDelta emptyEmailPlusFitness) 0 100 ∧
    finalScore (removeEmails emptyEmailPlusFitness) ≤ finalScore emptyEmailPlusFitness ∧
    finalScore emptyEmailPlusFitness ≤ finalScore (removeEmails emptyEmailPlusFitness) + 20 :=
  empty_email_source_plus_twenty emptyEmailPlusFitness {}
    (by rfl) (by simp) (by norm_num)
